import Mathlib

/-!
# Robigo Luculenta — verification of the render-pipeline core

A shallow embedding of the parts of the `robigo-luculenta` spectral path
tracer that the specification's claims are about:

* `src/gather_unit.rs` — the gather unit with its accumulation and
  compensation buffers and its snapshot persistence (`save` / `read`);
* `src/tonemap_unit.rs` and `src/srgb.rs` — exposure estimation and
  tonemapping;
* `src/trace_unit.rs` — the Russian-roulette path-termination loop;
* `src/task_scheduler.rs` — the task scheduler state machine.

Machine floating-point (`f32`) arithmetic is idealised as real arithmetic;
file contents are modelled at the granularity of one 12-byte little-endian
float triple (one `Vector3` record); a Rust panic is modelled as `none`.
-/

namespace RobigoLuculenta

/-- `Vector3` from `src/vector3.rs`, with `f32` idealised as `ℝ`. -/
structure Vector3 where
  x : ℝ
  y : ℝ
  z : ℝ

/-- `Vector3::zero()` from `src/vector3.rs`. -/
def Vector3.zero : Vector3 := ⟨0, 0, 0⟩

/-! ## Gather unit (`src/gather_unit.rs`)

The snapshot file `buffer.raw` is modelled as `Option (List Vector3)`:
`none` when the file is absent, otherwise the list of 12-byte float-triple
records it contains.  `GatherUnit::read` performs one 12-byte read per
buffer element and panics (`.ok().expect(...)`) as soon as a read fails,
which happens when the file has run out of records; a panic is modelled
by returning `none`. -/

/-- The state of `GatherUnit`: the tristimulus (accumulation) buffer and
the rounding-error compensation buffer. -/
structure GatherUnit where
  tristimulus_buffer : List Vector3
  compensation_buffer : List Vector3

namespace GatherUnit

/-- `GatherUnit::read` from `src/gather_unit.rs` (lines 83–92): if the file
is absent (`File::open` fails) the buffers are left untouched; otherwise
one record is read for every element of the tristimulus buffer followed by
every element of the compensation buffer, and a failed read (file exhausted)
panics via `.ok().expect("failed to read raw buffer")`, modelled as `none`. -/
def read (u : GatherUnit) (file : Option (List Vector3)) : Option GatherUnit :=
  match file with
  | none => some u
  | some data =>
    let n := u.tristimulus_buffer.length
    let m := u.compensation_buffer.length
    if n + m ≤ data.length then
      some { tristimulus_buffer := data.take n,
             compensation_buffer := (data.drop n).take m }
    else
      none

/-- `GatherUnit::new` from `src/gather_unit.rs` (lines 32–42): allocate
all-zero buffers of `width * height` elements each, then try to continue a
previous render by calling `read`. -/
def new (width height : ℕ) (file : Option (List Vector3)) : Option GatherUnit :=
  GatherUnit.read
    { tristimulus_buffer := List.replicate (width * height) Vector3.zero,
      compensation_buffer := List.replicate (width * height) Vector3.zero }
    file

/-- `GatherUnit::save` from `src/gather_unit.rs` (lines 72–80): the file
written is every tristimulus-buffer record followed by every
compensation-buffer record, in order. -/
def save (u : GatherUnit) : List Vector3 :=
  u.tristimulus_buffer ++ u.compensation_buffer

/-- `GatherUnit::clear` from `src/gather_unit.rs` (lines 62–68): overwrite
every tristimulus-buffer element with `Vector3::zero()`; the compensation
buffer is not touched. -/
def clear (u : GatherUnit) : GatherUnit :=
  { u with tristimulus_buffer := u.tristimulus_buffer.map (fun _ => Vector3.zero) }

end GatherUnit

/-! ## Tonemap unit (`src/tonemap_unit.rs`) and sRGB conversion (`src/srgb.rs`)

`f32` arithmetic is idealised as `ℝ`; the `as u8` cast of the clamped,
scaled channel (a value in `[0, 255]`) is truncation, i.e. `Nat.floor`.
The `rgb_buffer` written pixel-chunk by pixel-chunk is modelled as the
list of per-pixel `(r, g, b)` byte triples. -/

/-- `clamp` from `src/tonemap_unit.rs` (lines 34–38). -/
noncomputable def clamp (x : ℝ) : ℝ :=
  if x < 0 then 0 else if 1 < x then 1 else x

/-- `gamma_correct` from `src/srgb.rs`. -/
noncomputable def gamma_correct (f : ℝ) : ℝ :=
  if f ≤ 0.0031308 then
    12.92 * f
  else
    1.055 * f ^ ((1 : ℝ) / 2.4) - 0.055

/-- `srgb::transform` from `src/srgb.rs`: the sRGB primary matrix followed
by per-channel gamma correction. -/
noncomputable def srgb_transform (cie : Vector3) : Vector3 :=
  let r := 3.2406 * cie.x - 1.5372 * cie.y - 0.4986 * cie.z
  let g := -0.9689 * cie.x + 1.8758 * cie.y + 0.0415 * cie.z
  let b := 0.0557 * cie.x - 0.2040 * cie.y + 1.0570 * cie.z
  { x := gamma_correct r, y := gamma_correct g, z := gamma_correct b }

/-- `TonemapUnit::find_exposure` from `src/tonemap_unit.rs` (lines 54–80):
per-pixel intensities `x + y·5 + z`, their average divided by
`width · height · 7`, a variance from the sum of squared intensities
divided by `width · height · 49`, and the exposure estimate
`average + sqrt variance`. -/
noncomputable def find_exposure (image_width image_height : ℕ)
    (tristimuli : List Vector3) : ℝ :=
  let intensities := tristimuli.map (fun cie => cie.x + cie.y * 5 + cie.z)
  let average := intensities.sum /
    ((image_width : ℝ) * (image_height : ℝ) * 7)
  let variance := (intensities.map (fun i => i * i)).sum /
    ((image_width : ℝ) * (image_height : ℝ) * 49) - average * average
  average + Real.sqrt variance

/-- The exposure estimate as the claim words it (refinement reference, not
from the source): `mean(Y) + stddev(Y)` computed over the CIE Y channel of
all pixels. -/
noncomputable def find_exposure_claimed_meanY (image_width image_height : ℕ)
    (tristimuli : List Vector3) : ℝ :=
  let ys := tristimuli.map (fun cie => cie.y)
  let average := ys.sum / ((image_width : ℝ) * (image_height : ℝ))
  let variance := (ys.map (fun y => y * y)).sum /
    ((image_width : ℝ) * (image_height : ℝ)) - average * average
  average + Real.sqrt variance

/-- `TonemapUnit::tonemap` from `src/tonemap_unit.rs` (lines 84–112):
exposure correction `ln(channel / max_intensity + 1) / ln 4` per XYZ
channel, sRGB conversion, clamping to `[0, 1]`, and quantisation to one
byte per channel. -/
noncomputable def tonemap (image_width image_height : ℕ)
    (tristimuli : List Vector3) : List (ℕ × ℕ × ℕ) :=
  let max_intensity := find_exposure image_width image_height tristimuli
  let ln_4 := Real.log 4
  tristimuli.map (fun px =>
    let cie : Vector3 :=
      { x := Real.log (px.x / max_intensity + 1) / ln_4,
        y := Real.log (px.y / max_intensity + 1) / ln_4,
        z := Real.log (px.z / max_intensity + 1) / ln_4 }
    let rgb := srgb_transform cie
    (⌊clamp rgb.x * 255⌋₊, ⌊clamp rgb.y * 255⌋₊, ⌊clamp rgb.z * 255⌋₊))

/-! ## Trace unit (`src/trace_unit.rs`): `render_ray`

The scene is abstracted by an oracle `hit : ℕ → Hit` giving the outcome of
the `k`-th intersection along the path (nothing hit, an emissive material
with its intensity at the ray's wavelength, or a reflective material whose
scattered ray carries a probability weight), and the Monte-Carlo source by
a stream `rand : ℕ → ℝ` of the draws `get_unit()` consumed by the
Russian-roulette checks.  The unbounded `loop` is given fuel; `none` means
the fuel ran out with the path still alive. -/

/-- Outcome of one `scene.intersect` along the traced path. -/
inductive Hit where
  | void
  | emissive (intensity : ℝ)
  | reflective (probability : ℝ)

open Classical in
/-- The `loop` of `TraceUnit::render_ray` (`src/trace_unit.rs`, lines
84–120), carrying `continue_chance` and `intensity` and the index `k` of
the next intersection/draw. -/
noncomputable def render_ray_loop (hit : ℕ → Hit) (rand : ℕ → ℝ) :
    ℕ → ℝ → ℝ → ℕ → Option ℝ
  | 0, _, _, _ => none
  | fuel + 1, continue_chance, intensity, k =>
    match hit k with
    | .void => some 0
    | .emissive i => some (intensity * i)
    | .reflective p =>
      let intensity2 := intensity * p
      let continue_chance2 := continue_chance * 0.96
      if rand k * 0.85 > continue_chance2 * (1 - Real.exp (intensity2 * (-20))) then
        some 0
      else
        render_ray_loop hit rand fuel continue_chance2 intensity2 (k + 1)

/-- `TraceUnit::render_ray` (lines 75–126): the path starts with
`continue_chance = 1` and `intensity = 1` at the first intersection. -/
noncomputable def render_ray (hit : ℕ → Hit) (rand : ℕ → ℝ) (fuel : ℕ) : Option ℝ :=
  render_ray_loop hit rand fuel 1 1 0

/-- The survival condition of bounce `j` as the claim words it: the
continuation probability after `j + 1` reflective bounces is `0.96 ^ (j+1)`,
the intensity is the running product of the scattered rays' probability
weights `p 0 ⋯ p j`, and the draw (scaled by the constant factor `0.85`)
must not exceed `continuation_probability · (1 − exp (−20 · intensity))`. -/
def roulette_survives (rand p : ℕ → ℝ) (j : ℕ) : Prop :=
  rand j * 0.85 ≤
    0.96 ^ (j + 1) * (1 - Real.exp (-(20 * ∏ i ∈ Finset.range (j + 1), p i)))

/-! ## Task scheduler (`src/task_scheduler.rs`)

The scheduler is embedded parametrically in the four unit types `T`
(trace), `P` (plot), `G` (gather), `M` (tonemap); the scheduling logic
never inspects a unit's contents, and `TaskScheduler::new` receives the
unit constructors (in the source, `TraceUnit::new(i, width, height)` and
`PlotUnit::new(i, width, height)`).  `RingBuf` queues are Lean lists whose
head is the `pop_front` end and whose tail end receives `push_back`.
Wall-clock timestamps are integers (in seconds); each `get_new_task` call
observes a single timestamp `now`.  The `unwrap` calls in the
`create_*_task` helpers would panic on an empty queue, so the helpers
return `Option` (`none` = panic); `get_new_task`'s guards ensure `some`.
Console printing is dropped; the throughput statistics that the source
computes with `f32` are kept in `ℚ`. -/

/-- The `Task` enum from `src/task_scheduler.rs` (lines 29–44). -/
inductive Task (T P G M : Type) where
  | sleep
  | trace (unit : T)
  | plot (unit : P) (trace_units : List T)
  | gather (unit : G) (plot_units : List P)
  | tonemap (tone_unit : M) (gath_unit : G)

/-- `tonemap_interval()` (lines 47–49): tonemap every 30 seconds. -/
def tonemap_interval : ℤ := 30

/-- The `TaskScheduler` state (lines 52–89). -/
structure TaskScheduler (T P G M : Type) where
  traces_completed : ℕ
  performance : List ℚ
  number_of_trace_units : ℕ
  available_trace_units : List T
  done_trace_units : List T
  available_plot_units : List P
  done_plot_units : List P
  gather_unit : Option G
  tonemap_unit : Option M
  last_tonemap_time : ℤ
  image_changed : Bool

namespace TaskScheduler

variable {T P G M : Type}

/-- `TaskScheduler::new` (lines 94–128): `concurrency · 3` trace units,
`max 1 (concurrency / 2)` plot units, one gather unit and one tonemap unit,
with the current time as the initial last-tonemap time. -/
def new (mkTrace : ℕ → T) (mkPlot : ℕ → P) (gather0 : G) (tonemap0 : M)
    (concurrency : ℕ) (now : ℤ) : TaskScheduler T P G M :=
  let n_trace_units := concurrency * 3
  let n_plot_units := max 1 (concurrency / 2)
  { traces_completed := 0
    performance := []
    number_of_trace_units := n_trace_units
    available_trace_units := (List.range n_trace_units).map mkTrace
    done_trace_units := []
    available_plot_units := (List.range n_plot_units).map mkPlot
    done_plot_units := []
    gather_unit := some gather0
    tonemap_unit := some tonemap0
    last_tonemap_time := now
    image_changed := false }

/-- `complete_trace_task` (lines 244–253). -/
def complete_trace_task (s : TaskScheduler T P G M) (trace_unit : T) :
    TaskScheduler T P G M :=
  { s with done_trace_units := s.done_trace_units ++ [trace_unit]
           traces_completed := s.traces_completed + 1 }

/-- `complete_plot_task` (lines 255–272). -/
def complete_plot_task (s : TaskScheduler T P G M) (plot_unit : P)
    (trace_units : List T) : TaskScheduler T P G M :=
  { s with available_trace_units := s.available_trace_units ++ trace_units
           done_plot_units := s.done_plot_units ++ [plot_unit] }

/-- `complete_gather_task` (lines 274–293). -/
def complete_gather_task (s : TaskScheduler T P G M) (gath_unit : G)
    (plot_units : List P) : TaskScheduler T P G M :=
  { s with available_plot_units := s.available_plot_units ++ plot_units
           gather_unit := some gath_unit
           image_changed := true }

/-- `complete_tonemap_task` (lines 295–329): restore both slots, clear the
changed flag, record the tonemap time, and keep up to 512 throughput
measurements. -/
def complete_tonemap_task (s : TaskScheduler T P G M) (tone_unit : M)
    (gath_unit : G) (now : ℤ) : TaskScheduler T P G M :=
  let render_time := now - s.last_tonemap_time
  let batches_per_sec : ℚ :=
    (s.traces_completed : ℚ) * 1000 / ((render_time : ℚ) * 1000)
  let performance2 := s.performance ++ [batches_per_sec]
  { s with gather_unit := some gath_unit
           tonemap_unit := some tone_unit
           image_changed := false
           last_tonemap_time := now
           traces_completed := 0
           performance :=
             if performance2.length > 512 then performance2.tail else performance2 }

/-- `complete_task` (lines 234–242). -/
def complete_task (s : TaskScheduler T P G M) (task : Task T P G M) (now : ℤ) :
    TaskScheduler T P G M :=
  match task with
  | .sleep => s
  | .trace unit => s.complete_trace_task unit
  | .plot unit units => s.complete_plot_task unit units
  | .gather unit units => s.complete_gather_task unit units
  | .tonemap t_unt g_unt => s.complete_tonemap_task t_unt g_unt now

/-- `create_trace_task` (lines 187–193): `pop_front().unwrap()` on the
available-trace queue (`none` models the panic on an empty queue). -/
def create_trace_task (s : TaskScheduler T P G M) :
    Option (Task T P G M × TaskScheduler T P G M) :=
  match s.available_trace_units with
  | [] => none
  | trace_unit :: rest =>
    some (.trace trace_unit, { s with available_trace_units := rest })

/-- `create_plot_task` (lines 195–210): take the first available plot unit
and `max 1 (done / 2)` done trace units from the front of the done queue. -/
def create_plot_task (s : TaskScheduler T P G M) :
    Option (Task T P G M × TaskScheduler T P G M) :=
  match s.available_plot_units with
  | [] => none
  | plot_unit :: rest =>
    let done := s.done_trace_units.length
    let n := max 1 (done / 2)
    let trace_units := s.done_trace_units.take n
    some (.plot plot_unit trace_units,
      { s with available_plot_units := rest
               done_trace_units := s.done_trace_units.drop n })

/-- `create_gather_task` (lines 212–222): take the gather unit and drain
the whole done-plot queue. -/
def create_gather_task (s : TaskScheduler T P G M) :
    Option (Task T P G M × TaskScheduler T P G M) :=
  match s.gather_unit with
  | none => none
  | some gath_unit =>
    some (.gather gath_unit s.done_plot_units,
      { s with gather_unit := none, done_plot_units := [] })

/-- `create_tonemap_task` (lines 224–231): take both slots. -/
def create_tonemap_task (s : TaskScheduler T P G M) :
    Option (Task T P G M × TaskScheduler T P G M) :=
  match s.gather_unit, s.tonemap_unit with
  | some g_unt, some t_unt =>
    some (.tonemap t_unt g_unt, { s with gather_unit := none, tonemap_unit := none })
  | _, _ => none

/-- Lines 156–184 of `get_new_task`: the part after the periodic-tonemap
check, reached whenever that check falls through. -/
def get_new_task_tail (s : TaskScheduler T P G M) :
    Option (Task T P G M × TaskScheduler T P G M) :=
  if decide (s.done_trace_units.length > s.number_of_trace_units / 2) &&
      !s.available_plot_units.isEmpty then
    s.create_plot_task
  else if !s.available_trace_units.isEmpty then
    s.create_trace_task
  else if !s.available_plot_units.isEmpty && !s.done_trace_units.isEmpty then
    s.create_plot_task
  else if s.gather_unit.isSome && !s.done_plot_units.isEmpty then
    s.create_gather_task
  else
    some (.sleep, s)

/-- `get_new_task` (lines 130–185): retire the completed task, then pick
the next task; `now` is the timestamp observed by this call. -/
def get_new_task (s : TaskScheduler T P G M) (completed_task : Task T P G M)
    (now : ℤ) : Option (Task T P G M × TaskScheduler T P G M) :=
  let s := s.complete_task completed_task now
  if now - s.last_tonemap_time > tonemap_interval then
    if s.image_changed then
      if s.gather_unit.isSome && s.tonemap_unit.isSome then
        s.create_tonemap_task
      else
        s.get_new_task_tail
    else
      if s.gather_unit.isSome && !s.done_plot_units.isEmpty then
        s.create_gather_task
      else
        s.get_new_task_tail
  else
    s.get_new_task_tail

end TaskScheduler

/-- The priority rule list exactly as the claim words it (refinement
reference for `get_new_task`, evaluated on the already-retired state):
(1) past the tonemap interval, Tonemap if the image changed and both slots
are populated, or else Gather if the image has not changed, the gather
slot is populated and the done-plot queue is non-empty; (2) Plot if the
done-trace count exceeds half the trace-unit pool and a plot unit is
available; (3) Trace if any trace unit is available; (4) Plot if a plot
unit is available and the done-trace queue is non-empty; (5) Gather if the
gather slot is populated and the done-plot queue is non-empty;
(6) Sleep. -/
def get_new_task_claimed_rules {T P G M : Type} (s : TaskScheduler T P G M)
    (now : ℤ) : Option (Task T P G M × TaskScheduler T P G M) :=
  if now - s.last_tonemap_time > tonemap_interval &&
      s.image_changed && s.gather_unit.isSome && s.tonemap_unit.isSome then
    s.create_tonemap_task
  else if now - s.last_tonemap_time > tonemap_interval &&
      !s.image_changed && s.gather_unit.isSome && !s.done_plot_units.isEmpty then
    s.create_gather_task
  else if decide (s.done_trace_units.length > s.number_of_trace_units / 2) &&
      !s.available_plot_units.isEmpty then
    s.create_plot_task
  else if !s.available_trace_units.isEmpty then
    s.create_trace_task
  else if !s.available_plot_units.isEmpty && !s.done_trace_units.isEmpty then
    s.create_plot_task
  else if s.gather_unit.isSome && !s.done_plot_units.isEmpty then
    s.create_gather_task
  else
    some (.sleep, s)

namespace Task

variable {T P G M : Type}

/-- Trace units held by an in-flight task. -/
def traceCount : Task T P G M → ℕ
  | .trace _ => 1
  | .plot _ trace_units => trace_units.length
  | _ => 0

/-- Plot units held by an in-flight task. -/
def plotCount : Task T P G M → ℕ
  | .plot _ _ => 1
  | .gather _ plot_units => plot_units.length
  | _ => 0

/-- Whether an in-flight task holds the gather unit. -/
def holdsGather : Task T P G M → Bool
  | .gather _ _ => true
  | .tonemap _ _ => true
  | _ => false

/-- Whether an in-flight task holds the tonemap unit. -/
def holdsTonemap : Task T P G M → Bool
  | .tonemap _ _ => true
  | _ => false

end Task

/-- Pool conservation at one observation point of a run with concurrency
`C`: the trace units in the available queue, the done queue and the
in-flight task total `3 · C`; the plot units total `max 1 (C / 2)`; and
the gather and tonemap units are each in the slot exactly when the
in-flight task does not hold them. -/
def PoolInv {T P G M : Type} (C : ℕ) (s : TaskScheduler T P G M)
    (t : Task T P G M) : Prop :=
  s.available_trace_units.length + s.done_trace_units.length + t.traceCount = 3 * C
  ∧ s.available_plot_units.length + s.done_plot_units.length + t.plotCount
      = max 1 (C / 2)
  ∧ s.gather_unit.isSome = !t.holdsGather
  ∧ s.tonemap_unit.isSome = !t.holdsTonemap

/-- A single-chain run: the worker loop of `src/app.rs` starts from
`Task::Sleep` and keeps feeding the previously issued task back into
`get_new_task`; `times` is the timestamp observed by each call. -/
def schedulerRun {T P G M : Type} (mkTrace : ℕ → T) (mkPlot : ℕ → P)
    (gather0 : G) (tonemap0 : M) (concurrency : ℕ) (now0 : ℤ)
    (times : List ℤ) : Option (Task T P G M × TaskScheduler T P G M) :=
  times.foldlM (fun p now => p.2.get_new_task p.1 now)
    (Task.sleep, TaskScheduler.new mkTrace mkPlot gather0 tonemap0 concurrency now0)

/-! ## Theorems about the gather unit -/

/-- C3, counterexample: the claim says constructing a `GatherUnit` over a
present-but-short snapshot file "never crashes"; but on a present, empty
file (shorter than the expected `2·width·height` records) the constructor's
`read` hits a failed `file.read` and panics through
`.ok().expect("failed to read raw buffer")` (modelled as `none`). -/
theorem gather_new_short_file_panics :
    GatherUnit.new 1 1 (some []) = none := rfl

/-- C3, amended: constructing a `GatherUnit` when the snapshot file is
absent silently starts from all-zero accumulation and compensation buffers
and never crashes; when the file holds at least the expected
`2·width·height` records the constructor also succeeds; but a present file
with fewer records than expected makes the constructor panic. -/
theorem gather_new_absent_file_starts_from_zero (width height : ℕ) :
    GatherUnit.new width height none =
      some { tristimulus_buffer := List.replicate (width * height) Vector3.zero,
             compensation_buffer := List.replicate (width * height) Vector3.zero }
    ∧ (∀ data : List Vector3, 2 * (width * height) ≤ data.length →
        (GatherUnit.new width height (some data)).isSome = true)
    ∧ (∀ data : List Vector3, data.length < 2 * (width * height) →
        GatherUnit.new width height (some data) = none) := by
  refine ⟨rfl, ?_, ?_⟩
  · intro data hlen
    simp only [GatherUnit.new, GatherUnit.read, List.length_replicate]
    rw [if_pos (by omega)]
    rfl
  · intro data hlen
    simp only [GatherUnit.new, GatherUnit.read, List.length_replicate]
    rw [if_neg (by omega)]

/-- C3, witness: at width = height = 1, a file with the expected two
records is accepted by the constructor. -/
theorem gather_new_absent_file_starts_from_zero_witness :
    2 * (1 * 1) ≤ ([Vector3.zero, Vector3.zero] : List Vector3).length
    ∧ (GatherUnit.new 1 1 (some [Vector3.zero, Vector3.zero])).isSome = true :=
  ⟨by simp, (gather_new_absent_file_starts_from_zero 1 1).2.1
    [Vector3.zero, Vector3.zero] (by simp)⟩

/-- C5: `save()` followed by constructing a new `GatherUnit` of the same
width and height that reads the written snapshot (all accumulation records
then all compensation records, in pixel order) reproduces the original
unit's accumulation and compensation buffers exactly, for every size —
in particular for 1×1, 16×9 and 1280×720. -/
theorem gather_save_read_round_trip (u : GatherUnit) (width height : ℕ)
    (ht : u.tristimulus_buffer.length = width * height)
    (hc : u.compensation_buffer.length = width * height) :
    GatherUnit.new width height (some u.save) = some u := by
  simp only [GatherUnit.new, GatherUnit.read, GatherUnit.save,
    List.length_replicate, List.length_append]
  rw [if_pos (by omega)]
  rw [← ht, List.take_left, List.drop_left, ht.trans hc.symm, List.take_length]

/-- C5, witness: a concrete 1×1 round trip. -/
theorem gather_save_read_round_trip_witness :
    ([(⟨1, 2, 3⟩ : Vector3)].length = 1 * 1)
    ∧ GatherUnit.new 1 1
        (some (GatherUnit.save ⟨[⟨1, 2, 3⟩], [⟨4, 5, 6⟩]⟩)) =
      some ⟨[⟨1, 2, 3⟩], [⟨4, 5, 6⟩]⟩ :=
  ⟨rfl, gather_save_read_round_trip ⟨[⟨1, 2, 3⟩], [⟨4, 5, 6⟩]⟩ 1 1 rfl rfl⟩

/-- C10: `GatherUnit::clear()` overwrites every element of the tristimulus
(accumulation) buffer with zero and leaves the compensation buffer
unchanged, so error-feedback state survives a clear. -/
theorem gather_clear_zeroes_only_tristimulus (u : GatherUnit) :
    (u.clear).tristimulus_buffer =
      List.replicate u.tristimulus_buffer.length Vector3.zero
    ∧ (u.clear).compensation_buffer = u.compensation_buffer := by
  constructor
  · simp [GatherUnit.clear, List.map_const']
  · rfl

/-! ## Theorems about the tonemap unit -/

/-- Dividing each mapped value by a constant divides the sum. -/
lemma sum_map_div {α : Type} (l : List α) (f : α → ℝ) (c : ℝ) :
    (l.map (fun x => f x / c)).sum = (l.map f).sum / c := by
  induction l with
  | nil => simp
  | cons a l ih => simp [ih, add_div]

/-- Squares of values divided by a constant sum to the sum of products
divided by the square of the constant. -/
lemma sum_map_div_sq {α : Type} (l : List α) (f : α → ℝ) (c : ℝ) :
    (l.map (fun x => (f x / c) ^ 2)).sum = (l.map (fun x => f x * f x)).sum / c ^ 2 := by
  have hfun : (fun x => (f x / c) ^ 2) = fun x => (f x * f x) / c ^ 2 := by
    funext x
    rw [div_pow, pow_two]
  rw [hfun, sum_map_div l (fun x => f x * f x) (c ^ 2)]

/-- Arithmetic reshaping of the exposure formula: dividing by
`n · 7` and `n · 49` is dividing the intensity (and its square) by `7`
(and `49`) first and by the pixel count afterwards. -/
lemma exposure_arith (S Q n : ℝ) :
    S / (n * 7) + Real.sqrt (Q / (n * 49) - S / (n * 7) * (S / (n * 7)))
      = S / 7 / n + Real.sqrt (Q / 7 ^ 2 / n - (S / 7 / n) ^ 2) := by
  have h49 : (7 : ℝ) ^ 2 = 49 := by norm_num
  have h1 : S / (n * 7) = S / 7 / n := by rw [div_div, mul_comm]
  have h2 : Q / (n * 49) = Q / 7 ^ 2 / n := by rw [div_div, h49, mul_comm]
  rw [h1, h2, pow_two (S / 7 / n)]

/-- C4, counterexample: on the single-pixel buffer `(X, Y, Z) = (1, 0, 0)`
the code's exposure estimate is `1/7` (it is computed from the weighted
intensity `X + 5·Y + Z`), while `mean(Y) + stddev(Y)` over the CIE Y
channel is `0`, so the claimed formula disagrees with the code. -/
theorem find_exposure_not_meanY_stddevY :
    find_exposure 1 1 [⟨1, 0, 0⟩] ≠ find_exposure_claimed_meanY 1 1 [⟨1, 0, 0⟩] := by
  simp only [find_exposure, find_exposure_claimed_meanY, List.map_cons,
    List.map_nil, List.sum_cons, List.sum_nil]
  norm_num

/-- C4, amended: for every input tristimulus buffer, the exposure estimate
used by the tonemap operation equals `mean(I) + stddev(I)` over the
per-pixel weighted intensity `I = (X + 5·Y + Z) / 7` (dividing by the
pixel count `width · height`), not over the bare CIE Y channel. -/
theorem find_exposure_eq_weighted_mean_stddev (w h : ℕ) (ts : List Vector3) :
    find_exposure w h ts =
      (ts.map (fun cie => (cie.x + cie.y * 5 + cie.z) / 7)).sum / ((w : ℝ) * h)
      + Real.sqrt
          ((ts.map (fun cie => ((cie.x + cie.y * 5 + cie.z) / 7) ^ 2)).sum
              / ((w : ℝ) * h)
            - ((ts.map (fun cie => (cie.x + cie.y * 5 + cie.z) / 7)).sum
              / ((w : ℝ) * h)) ^ 2) := by
  simp only [find_exposure, List.map_map, Function.comp_def]
  rw [sum_map_div ts (fun cie => cie.x + cie.y * 5 + cie.z) 7,
    sum_map_div_sq ts (fun cie => cie.x + cie.y * 5 + cie.z) 7]
  exact exposure_arith _ _ _

/-- On a constant buffer of `width · height` copies of one pixel, the
exposure estimate is that pixel's weighted intensity `(x + 5y + z) / 7`
(the variance term vanishes). -/
lemma find_exposure_const (w h : ℕ) (c : Vector3) (hwh : w * h ≠ 0) :
    find_exposure w h (List.replicate (w * h) c) = (c.x + c.y * 5 + c.z) / 7 := by
  have hn : ((w * h : ℕ) : ℝ) ≠ 0 := Nat.cast_ne_zero.mpr hwh
  have hcast : ((w * h : ℕ) : ℝ) = (w : ℝ) * h := by push_cast; ring
  have hn' : (w : ℝ) * h ≠ 0 := hcast ▸ hn
  simp only [find_exposure, List.map_replicate, List.sum_replicate, nsmul_eq_mul, hcast]
  rw [mul_div_mul_left _ _ hn', mul_div_mul_left _ _ hn']
  have hsq : (c.x + c.y * 5 + c.z) / 7 * ((c.x + c.y * 5 + c.z) / 7)
      = (c.x + c.y * 5 + c.z) * (c.x + c.y * 5 + c.z) / 49 := by ring
  rw [hsq, sub_self, Real.sqrt_zero, add_zero]

/-- Scaling a constant buffer scales the exposure estimate by the same
factor, so the exposure-corrected channel values, and with them the entire
tonemapped output, are unchanged. -/
lemma tonemap_replicate_scale (w h : ℕ) (c : Vector3) (s : ℝ)
    (hs : s ≠ 0) (_hc : c.x + c.y * 5 + c.z ≠ 0) (hwh : w * h ≠ 0) :
    tonemap w h (List.replicate (w * h) ⟨s * c.x, s * c.y, s * c.z⟩)
      = tonemap w h (List.replicate (w * h) c) := by
  have e1 : find_exposure w h (List.replicate (w * h) ⟨s * c.x, s * c.y, s * c.z⟩)
      = s * ((c.x + c.y * 5 + c.z) / 7) := by
    rw [find_exposure_const w h _ hwh]
    show (s * c.x + s * c.y * 5 + s * c.z) / 7 = _
    ring
  have e2 := find_exposure_const w h c hwh
  have hdiv : ∀ a : ℝ, s * a / (s * ((c.x + c.y * 5 + c.z) / 7))
      = a / ((c.x + c.y * 5 + c.z) / 7) := fun a => mul_div_mul_left a _ hs
  simp only [tonemap, e1, e2, List.map_replicate]
  rw [hdiv c.x, hdiv c.y, hdiv c.z]

/-- `gamma_correct` maps values below 1 to values below 1 (both the linear
branch and the power branch). -/
lemma gamma_correct_lt_one {f : ℝ} (hf : f < 1) : gamma_correct f < 1 := by
  unfold gamma_correct
  split_ifs with h
  · nlinarith
  · have hpos : (0 : ℝ) < f := lt_trans (by norm_num) (not_le.mp h)
    have h1 : f ^ ((1 : ℝ) / 2.4) < 1 :=
      Real.rpow_lt_one (le_of_lt hpos) hf (by norm_num)
    nlinarith

/-- `clamp` never returns a negative value. -/
lemma clamp_nonneg (x : ℝ) : 0 ≤ clamp x := by
  unfold clamp
  split_ifs with h1 h2
  · exact le_refl 0
  · norm_num
  · exact not_lt.mp h1

/-- `clamp` of a value below 1 stays below 1. -/
lemma clamp_lt_one {x : ℝ} (hx : x < 1) : clamp x < 1 := by
  unfold clamp
  split_ifs with h1 h2
  · norm_num
  · exact absurd (lt_trans h2 hx) (lt_irrefl 1)
  · exact hx

/-- An output channel quantised from a pre-clamp value below 1 is a byte
strictly below 255. -/
lemma byte_lt_255_of_lt_one {x : ℝ} (hx : x < 1) : ⌊clamp x * 255⌋₊ < 255 := by
  have h0 : (0 : ℝ) ≤ clamp x * 255 := by
    have := clamp_nonneg x
    nlinarith
  rw [Nat.floor_lt h0]
  have := clamp_lt_one hx
  norm_num
  nlinarith

/-- `log 2 / log 4 = 1/2`. -/
lemma log_two_div_log_four : Real.log 2 / Real.log 4 = 1 / 2 := by
  have h4 : (4 : ℝ) = 2 ^ 2 := by norm_num
  have hl : Real.log 2 ≠ 0 := ne_of_gt (Real.log_pos (by norm_num))
  rw [h4, Real.log_pow]
  field_simp
  ring

/-- C8, counterexample: between the constant buffer at `(7,7,7)` and the
brighter constant buffer at `(14,14,14)` (double the luminance), the
tonemapped outputs are *identical* — the exposure estimate scales with the
input, so the exposure-corrected channels are unchanged — and the red
channel is not saturated (it is `< 255`); hence the claim that each output
channel "strictly increases or saturates" fails. -/
theorem tonemap_not_strictly_monotone_in_luminance :
    tonemap 1 1 [⟨7, 7, 7⟩] = tonemap 1 1 [⟨14, 14, 14⟩]
    ∧ ¬ ((tonemap 1 1 [⟨7, 7, 7⟩]).headI.1 < (tonemap 1 1 [⟨14, 14, 14⟩]).headI.1
          ∨ (tonemap 1 1 [⟨14, 14, 14⟩]).headI.1 = 255) := by
  have hscale := tonemap_replicate_scale 1 1 ⟨7, 7, 7⟩ 2 (by norm_num)
    (by show (7 : ℝ) + 7 * 5 + 7 ≠ 0; norm_num) (by norm_num)
  have h14 : (⟨2 * 7, 2 * 7, 2 * 7⟩ : Vector3) = ⟨14, 14, 14⟩ := by norm_num
  have hrepl : ∀ v : Vector3, List.replicate (1 * 1) v = [v] := fun v => rfl
  rw [h14, hrepl, hrepl] at hscale
  have heq : tonemap 1 1 [(⟨7, 7, 7⟩ : Vector3)] = tonemap 1 1 [⟨14, 14, 14⟩] :=
    hscale.symm
  have e14 : find_exposure 1 1 [(⟨14, 14, 14⟩ : Vector3)] = 14 := by
    have h := find_exposure_const 1 1 ⟨14, 14, 14⟩ (by norm_num)
    rw [hrepl] at h
    rw [h]
    show ((14 : ℝ) + 14 * 5 + 14) / 7 = 14
    norm_num
  have hbyte : (tonemap 1 1 [(⟨14, 14, 14⟩ : Vector3)]).headI.1 < 255 := by
    simp only [tonemap, e14, List.map_cons, List.map_nil, List.headI, srgb_transform]
    have h2 : (14 : ℝ) / 14 + 1 = 2 := by norm_num
    rw [h2, log_two_div_log_four]
    have hr : (3.2406 : ℝ) * (1 / 2) - 1.5372 * (1 / 2) - 0.4986 * (1 / 2) = 0.6024 := by
      norm_num
    rw [hr]
    exact byte_lt_255_of_lt_one (gamma_correct_lt_one (by norm_num))
  refine ⟨heq, ?_⟩
  rintro (hlt | h255)
  · rw [heq] at hlt
    exact lt_irrefl _ hlt
  · omega

/-- C8, amended: for a constant-colour input buffer, increasing the uniform
luminance (scaling the constant tristimulus value by any positive factor)
leaves all three 8-bit output channels exactly unchanged — the automatic
exposure estimate scales by the same factor and cancels the scaling — so
the channels never decrease, but they do not strictly increase either. -/
theorem tonemap_constant_buffer_scale_invariant (w h : ℕ) (c : Vector3) (s : ℝ)
    (hs : 0 < s) (hc : c.x + c.y * 5 + c.z ≠ 0) (hwh : 0 < w * h) :
    tonemap w h (List.replicate (w * h) ⟨s * c.x, s * c.y, s * c.z⟩)
      = tonemap w h (List.replicate (w * h) c) :=
  tonemap_replicate_scale w h c s (ne_of_gt hs) hc (Nat.pos_iff_ne_zero.mp hwh)

/-- C8, witness: the invariance theorem applied at width = height = 1,
constant colour `(7,7,7)`, scale factor `2`. -/
theorem tonemap_constant_buffer_scale_invariant_witness :
    (0 : ℝ) < 2
    ∧ ((⟨7, 7, 7⟩ : Vector3).x + (⟨7, 7, 7⟩ : Vector3).y * 5
        + (⟨7, 7, 7⟩ : Vector3).z ≠ 0)
    ∧ 0 < 1 * 1
    ∧ tonemap 1 1 (List.replicate (1 * 1) ⟨2 * 7, 2 * 7, 2 * 7⟩)
        = tonemap 1 1 (List.replicate (1 * 1) ⟨7, 7, 7⟩) :=
  ⟨by norm_num, by show (7 : ℝ) + 7 * 5 + 7 ≠ 0; norm_num, by norm_num,
    tonemap_constant_buffer_scale_invariant 1 1 ⟨7, 7, 7⟩ 2 (by norm_num)
      (by show (7 : ℝ) + 7 * 5 + 7 ≠ 0; norm_num) (by norm_num)⟩

/-! ## Theorems about the task scheduler -/

/-- C1: `get_new_task` first retires the completed task — every
availability condition is evaluated on the state
`s.complete_task completed_task now` — and then returns exactly the task
selected by the claim's strict priority rule list
(`get_new_task_claimed_rules`) on that retired state. -/
theorem get_new_task_follows_claimed_rules {T P G M : Type}
    (s : TaskScheduler T P G M) (completed_task : Task T P G M) (now : ℤ) :
    s.get_new_task completed_task now
      = get_new_task_claimed_rules (s.complete_task completed_task now) now := by
  unfold TaskScheduler.get_new_task get_new_task_claimed_rules
    TaskScheduler.get_new_task_tail
  by_cases h1 :
      now - (s.complete_task completed_task now).last_tonemap_time > tonemap_interval
  case pos =>
    cases hch : (s.complete_task completed_task now).image_changed
    · rw [decide_eq_true h1]
      simp only [Bool.not_false, Bool.not_true, Bool.true_and, Bool.and_true,
        Bool.false_and, Bool.and_false]
      simp [h1, hch]
    · rw [decide_eq_true h1]
      simp only [hch, Bool.not_false, Bool.not_true, Bool.true_and, Bool.and_true,
        Bool.false_and, Bool.and_false]
      simp [h1, hch]
  case neg =>
    cases hch : (s.complete_task completed_task now).image_changed
    · rw [decide_eq_false h1]
      simp only [Bool.not_false, Bool.not_true, Bool.true_and, Bool.and_true,
        Bool.false_and, Bool.and_false]
      simp [h1, hch]
    · rw [decide_eq_false h1]
      simp only [hch, Bool.not_false, Bool.not_true, Bool.true_and, Bool.and_true,
        Bool.false_and, Bool.and_false]
      simp [h1, hch]

/-- Unfolding equation for `create_trace_task` on a non-empty queue. -/
lemma create_trace_task_cons {T P G M : Type} (s : TaskScheduler T P G M)
    (u : T) (rest : List T) (hu : s.available_trace_units = u :: rest) :
    s.create_trace_task = some (.trace u, { s with available_trace_units := rest }) := by
  unfold TaskScheduler.create_trace_task
  rw [hu]

/-- Unfolding equation for `create_plot_task` on a non-empty queue. -/
lemma create_plot_task_cons {T P G M : Type} (s : TaskScheduler T P G M)
    (u : P) (rest : List P) (hu : s.available_plot_units = u :: rest) :
    s.create_plot_task =
      some (.plot u (s.done_trace_units.take (max 1 (s.done_trace_units.length / 2))),
        { s with available_plot_units := rest
                 done_trace_units :=
                   s.done_trace_units.drop (max 1 (s.done_trace_units.length / 2)) }) := by
  unfold TaskScheduler.create_plot_task
  rw [hu]

/-- Unfolding equation for `create_gather_task` on a populated slot. -/
lemma create_gather_task_some {T P G M : Type} (s : TaskScheduler T P G M)
    (g : G) (hg : s.gather_unit = some g) :
    s.create_gather_task =
      some (.gather g s.done_plot_units,
        { s with gather_unit := none, done_plot_units := [] }) := by
  unfold TaskScheduler.create_gather_task
  rw [hg]

/-- Unfolding equation for `create_tonemap_task` on populated slots. -/
lemma create_tonemap_task_some {T P G M : Type} (s : TaskScheduler T P G M)
    (g : G) (m : M) (hg : s.gather_unit = some g) (hm : s.tonemap_unit = some m) :
    s.create_tonemap_task =
      some (.tonemap m g, { s with gather_unit := none, tonemap_unit := none }) := by
  unfold TaskScheduler.create_tonemap_task
  rw [hg, hm]

/-- C6: whenever the scheduler constructs a Plot task from a state with at
least one done trace unit (and an available plot unit, without which the
source would panic), the task carries `max 1 (done_count / 2)` trace units
— in particular at most that many — taken from the front of the done-trace
queue in FIFO order and removed from it (`ts ++ done-after = done-before`). -/
theorem create_plot_task_partial_fifo {T P G M : Type} (s : TaskScheduler T P G M)
    (hplot : s.available_plot_units ≠ [])
    ( _hdone : 1 ≤ s.done_trace_units.length) :
    ∃ (u : P) (ts : List T) (s' : TaskScheduler T P G M),
      s.create_plot_task = some (.plot u ts, s')
      ∧ ts.length ≤ max 1 (s.done_trace_units.length / 2)
      ∧ ts = s.done_trace_units.take (max 1 (s.done_trace_units.length / 2))
      ∧ ts ++ s'.done_trace_units = s.done_trace_units := by
  obtain ⟨u, rest, hu⟩ : ∃ u rest, s.available_plot_units = u :: rest := by
    cases hl : s.available_plot_units with
    | nil => exact absurd hl hplot
    | cons a l => exact ⟨a, l, rfl⟩
  refine ⟨u, _, _, create_plot_task_cons s u rest hu, ?_, rfl, ?_⟩
  · rw [List.length_take]
    exact min_le_left _ _
  · exact List.take_append_drop _ _

/-- C6, witness: concurrency 1, one completed trace unit in the done
queue. -/
theorem create_plot_task_partial_fifo_witness :
    (((TaskScheduler.new (T := ℕ) (P := ℕ) (G := ℕ) (M := ℕ)
        id id 0 0 1 0).complete_trace_task 9).available_plot_units ≠ [])
    ∧ (1 ≤ ((TaskScheduler.new (T := ℕ) (P := ℕ) (G := ℕ) (M := ℕ)
        id id 0 0 1 0).complete_trace_task 9).done_trace_units.length)
    ∧ ∃ (u : ℕ) (ts : List ℕ) (s' : TaskScheduler ℕ ℕ ℕ ℕ),
        ((TaskScheduler.new id id 0 0 1 0).complete_trace_task 9).create_plot_task
            = some (.plot u ts, s')
        ∧ ts.length ≤ max 1
            (((TaskScheduler.new id id 0 0 1 0).complete_trace_task
              9).done_trace_units.length / 2)
        ∧ ts = ((TaskScheduler.new id id 0 0 1 0).complete_trace_task
              9).done_trace_units.take (max 1
            (((TaskScheduler.new id id 0 0 1 0).complete_trace_task
              9).done_trace_units.length / 2))
        ∧ ts ++ s'.done_trace_units
            = ((TaskScheduler.new id id 0 0 1 0).complete_trace_task
              9).done_trace_units :=
  ⟨by decide, by decide,
    create_plot_task_partial_fifo _ (by decide) (by decide)⟩

/-- A trace task satisfies both non-empty-batch implications vacuously. -/
lemma batches_of_create_trace {T P G M : Type} {s s' : TaskScheduler T P G M}
    {t' : Task T P G M} (h : s.create_trace_task = some (t', s')) :
    (∀ (u : P) (ts : List T), t' = Task.plot u ts → ts ≠ [])
    ∧ (∀ (g : G) (ps : List P), t' = Task.gather g ps → ps ≠ []) := by
  unfold TaskScheduler.create_trace_task at h
  cases hu : s.available_trace_units with
  | nil => rw [hu] at h; cases h
  | cons a l =>
    rw [hu] at h
    simp only [Option.some.injEq, Prod.mk.injEq] at h
    obtain ⟨h1, -⟩ := h
    subst h1
    exact ⟨fun u ts heq => (nomatch heq), fun g ps heq => (nomatch heq)⟩

/-- A tonemap task satisfies both non-empty-batch implications vacuously. -/
lemma batches_of_create_tonemap {T P G M : Type} {s s' : TaskScheduler T P G M}
    {t' : Task T P G M} (h : s.create_tonemap_task = some (t', s')) :
    (∀ (u : P) (ts : List T), t' = Task.plot u ts → ts ≠ [])
    ∧ (∀ (g : G) (ps : List P), t' = Task.gather g ps → ps ≠ []) := by
  unfold TaskScheduler.create_tonemap_task at h
  cases hg : s.gather_unit with
  | none => cases hm : s.tonemap_unit <;> rw [hg, hm] at h <;> cases h
  | some g =>
    cases hm : s.tonemap_unit with
    | none => rw [hg, hm] at h; cases h
    | some m =>
      rw [hg, hm] at h
      simp only [Option.some.injEq, Prod.mk.injEq] at h
      obtain ⟨h1, -⟩ := h
      subst h1
      exact ⟨fun u ts heq => (nomatch heq), fun g ps heq => (nomatch heq)⟩

/-- Under its call-site guard, a gather task drains the non-empty done-plot
queue, so its batch is non-empty. -/
lemma batches_of_create_gather {T P G M : Type} {s s' : TaskScheduler T P G M}
    {t' : Task T P G M}
    (hguard : (s.gather_unit.isSome && !s.done_plot_units.isEmpty) = true)
    (h : s.create_gather_task = some (t', s')) :
    (∀ (u : P) (ts : List T), t' = Task.plot u ts → ts ≠ [])
    ∧ (∀ (g : G) (ps : List P), t' = Task.gather g ps → ps ≠ []) := by
  simp only [Bool.and_eq_true, Option.isSome_iff_exists, Bool.not_eq_true',
    List.isEmpty_eq_false] at hguard
  obtain ⟨⟨g, hg⟩, hdp⟩ := hguard
  rw [create_gather_task_some s g hg] at h
  simp only [Option.some.injEq, Prod.mk.injEq] at h
  obtain ⟨h1, -⟩ := h
  subst h1
  refine ⟨fun u ts heq => (nomatch heq), fun g' ps heq => ?_⟩
  cases heq
  exact hdp

/-- With a non-empty done-trace queue, a plot task's batch
`take (max 1 (done / 2))` is non-empty. -/
lemma batches_of_create_plot {T P G M : Type} {s s' : TaskScheduler T P G M}
    {t' : Task T P G M} (hdt : s.done_trace_units ≠ [])
    (h : s.create_plot_task = some (t', s')) :
    (∀ (u : P) (ts : List T), t' = Task.plot u ts → ts ≠ [])
    ∧ (∀ (g : G) (ps : List P), t' = Task.gather g ps → ps ≠ []) := by
  unfold TaskScheduler.create_plot_task at h
  cases hu : s.available_plot_units with
  | nil => rw [hu] at h; cases h
  | cons a l =>
    rw [hu] at h
    simp only [Option.some.injEq, Prod.mk.injEq] at h
    obtain ⟨h1, -⟩ := h
    subst h1
    refine ⟨fun u ts heq => ?_, fun g ps heq => (nomatch heq)⟩
    cases heq
    have hlen : 0 < s.done_trace_units.length := List.length_pos.mpr hdt
    have : 0 < (s.done_trace_units.take
        (max 1 (s.done_trace_units.length / 2))).length := by
      rw [List.length_take]
      exact lt_min_iff.mpr ⟨by omega, hlen⟩
    exact List.ne_nil_of_length_pos this

/-- C9: every Plot task handed out by `get_new_task` carries a non-empty
list of trace units, and every Gather task a non-empty list of plot units.
The guards at every call site ensure the corresponding done queue is
non-empty, and the plot batch size `max 1 (done / 2)` is at least 1. -/
theorem get_new_task_batches_nonempty {T P G M : Type}
    (s : TaskScheduler T P G M) (completed_task : Task T P G M) (now : ℤ)
    (t' : Task T P G M) (s' : TaskScheduler T P G M)
    (h : s.get_new_task completed_task now = some (t', s')) :
    (∀ (u : P) (ts : List T), t' = Task.plot u ts → ts ≠ [])
    ∧ (∀ (g : G) (ps : List P), t' = Task.gather g ps → ps ≠ []) := by
  simp only [TaskScheduler.get_new_task, TaskScheduler.get_new_task_tail] at h
  split_ifs at h
  all_goals
    first
      | exact batches_of_create_tonemap h
      | exact batches_of_create_trace h
      | exact batches_of_create_gather ‹_› h
      | -- the backpressure plot branch: its count guard forces a non-empty
        -- done-trace queue
        (refine batches_of_create_plot ?_ h
         have hc : (decide ((s.complete_task completed_task
             now).done_trace_units.length > (s.complete_task completed_task
             now).number_of_trace_units / 2) && !(s.complete_task completed_task
             now).available_plot_units.isEmpty) = true := ‹_›
         simp only [Bool.and_eq_true, decide_eq_true_eq] at hc
         exact List.ne_nil_of_length_pos (by omega))
      | -- the drain plot branch: its guard contains the non-emptiness
        (refine batches_of_create_plot ?_ h
         have hc : (!(s.complete_task completed_task
             now).available_plot_units.isEmpty && !(s.complete_task completed_task
             now).done_trace_units.isEmpty) = true := ‹_›
         simp only [Bool.and_eq_true, Bool.not_eq_true',
           List.isEmpty_eq_false] at hc
         exact hc.2)
      | -- the sleep fallback
        (simp only [Option.some.injEq, Prod.mk.injEq] at h
         obtain ⟨h1, -⟩ := h
         subst h1
         exact ⟨fun u ts heq => (nomatch heq), fun g ps heq => (nomatch heq)⟩)

/-- C9, witness: a state with one done trace unit and one available plot
unit hands out the plot task `Plot 5 [9]`, whose batch is non-empty. -/
theorem get_new_task_batches_nonempty_witness :
    ∃ (s' : TaskScheduler ℕ ℕ ℕ ℕ),
      (⟨0, [], 1, [], [9], [5], [], some 0, some 0, 0, false⟩ :
          TaskScheduler ℕ ℕ ℕ ℕ).get_new_task Task.sleep 0
        = some (Task.plot 5 [9], s')
      ∧ ([9] : List ℕ) ≠ [] :=
  ⟨_, rfl, (get_new_task_batches_nonempty
    (⟨0, [], 1, [], [9], [5], [], some 0, some 0, 0, false⟩ : TaskScheduler ℕ ℕ ℕ ℕ)
    Task.sleep 0 (Task.plot 5 [9]) _ rfl).1 5 [9] rfl⟩

/-- Retiring any completed task restores its units to the pools: the
conservation invariant carries over to the retired state with no task in
flight. -/
lemma complete_task_inv {T P G M : Type} {C : ℕ} {s : TaskScheduler T P G M}
    {t : Task T P G M} (hInv : PoolInv C s t) (now : ℤ) :
    PoolInv C (s.complete_task t now) Task.sleep := by
  obtain ⟨h1, h2, h3, h4⟩ := hInv
  cases t with
  | sleep => exact ⟨h1, h2, h3, h4⟩
  | trace u =>
    refine ⟨?_, h2, h3, h4⟩
    dsimp only [Task.traceCount] at h1 ⊢
    show s.available_trace_units.length + (s.done_trace_units ++ [u]).length + 0
      = 3 * C
    rw [List.length_append]
    simp only [List.length_cons, List.length_nil]
    omega
  | plot u ts =>
    refine ⟨?_, ?_, h3, h4⟩
    · dsimp only [Task.traceCount] at h1 ⊢
      show (s.available_trace_units ++ ts).length + s.done_trace_units.length + 0
        = 3 * C
      rw [List.length_append]
      omega
    · dsimp only [Task.plotCount] at h2 ⊢
      show s.available_plot_units.length + (s.done_plot_units ++ [u]).length + 0
        = max 1 (C / 2)
      rw [List.length_append]
      simp only [List.length_cons, List.length_nil]
      omega
  | gather g ps =>
    refine ⟨h1, ?_, rfl, h4⟩
    dsimp only [Task.plotCount] at h2 ⊢
    show (s.available_plot_units ++ ps).length + s.done_plot_units.length + 0
      = max 1 (C / 2)
    rw [List.length_append]
    omega
  | tonemap m g =>
    exact ⟨h1, h2, rfl, rfl⟩

/-- Handing out a trace task preserves conservation. -/
lemma pool_inv_create_trace {T P G M : Type} {C : ℕ} {s s' : TaskScheduler T P G M}
    {t' : Task T P G M} (hInv : PoolInv C s Task.sleep)
    (h : s.create_trace_task = some (t', s')) : PoolInv C s' t' := by
  obtain ⟨h1, h2, h3, h4⟩ := hInv
  unfold TaskScheduler.create_trace_task at h
  cases hu : s.available_trace_units with
  | nil => rw [hu] at h; cases h
  | cons a l =>
    rw [hu] at h
    simp only [Option.some.injEq, Prod.mk.injEq] at h
    obtain ⟨ht, hs⟩ := h
    subst ht
    subst hs
    rw [hu] at h1
    simp only [List.length_cons] at h1
    refine ⟨?_, h2, h3, h4⟩
    dsimp only [Task.traceCount] at h1 ⊢
    omega

/-- Handing out a plot task preserves conservation. -/
lemma pool_inv_create_plot {T P G M : Type} {C : ℕ} {s s' : TaskScheduler T P G M}
    {t' : Task T P G M} (hInv : PoolInv C s Task.sleep)
    (h : s.create_plot_task = some (t', s')) : PoolInv C s' t' := by
  obtain ⟨h1, h2, h3, h4⟩ := hInv
  unfold TaskScheduler.create_plot_task at h
  cases hu : s.available_plot_units with
  | nil => rw [hu] at h; cases h
  | cons a l =>
    rw [hu] at h
    simp only [Option.some.injEq, Prod.mk.injEq] at h
    obtain ⟨ht, hs⟩ := h
    subst ht
    subst hs
    rw [hu] at h2
    simp only [List.length_cons] at h2
    refine ⟨?_, ?_, h3, h4⟩
    · dsimp only [Task.traceCount] at h1 ⊢
      show s.available_trace_units.length
          + (s.done_trace_units.drop
              (max 1 (s.done_trace_units.length / 2))).length
          + (s.done_trace_units.take
              (max 1 (s.done_trace_units.length / 2))).length = 3 * C
      rw [List.length_drop, List.length_take]
      omega
    · dsimp only [Task.plotCount] at h2 ⊢
      omega

/-- Handing out a gather task preserves conservation. -/
lemma pool_inv_create_gather {T P G M : Type} {C : ℕ} {s s' : TaskScheduler T P G M}
    {t' : Task T P G M} (hInv : PoolInv C s Task.sleep)
    (h : s.create_gather_task = some (t', s')) : PoolInv C s' t' := by
  obtain ⟨h1, h2, h3, h4⟩ := hInv
  unfold TaskScheduler.create_gather_task at h
  cases hg : s.gather_unit with
  | none => rw [hg] at h; cases h
  | some g =>
    rw [hg] at h
    simp only [Option.some.injEq, Prod.mk.injEq] at h
    obtain ⟨ht, hs⟩ := h
    subst ht
    subst hs
    refine ⟨h1, ?_, rfl, h4⟩
    dsimp only [Task.plotCount] at h2 ⊢
    show s.available_plot_units.length + 0 + s.done_plot_units.length
      = max 1 (C / 2)
    omega

/-- Handing out a tonemap task preserves conservation. -/
lemma pool_inv_create_tonemap {T P G M : Type} {C : ℕ} {s s' : TaskScheduler T P G M}
    {t' : Task T P G M} (hInv : PoolInv C s Task.sleep)
    (h : s.create_tonemap_task = some (t', s')) : PoolInv C s' t' := by
  obtain ⟨h1, h2, h3, h4⟩ := hInv
  unfold TaskScheduler.create_tonemap_task at h
  cases hg : s.gather_unit with
  | none => cases hm : s.tonemap_unit <;> rw [hg, hm] at h <;> cases h
  | some g =>
    cases hm : s.tonemap_unit with
    | none => rw [hg, hm] at h; cases h
    | some m =>
      rw [hg, hm] at h
      simp only [Option.some.injEq, Prod.mk.injEq] at h
      obtain ⟨ht, hs⟩ := h
      subst ht
      subst hs
      exact ⟨h1, h2, rfl, rfl⟩

/-- One `get_new_task` call preserves the conservation invariant: the
completed task's units are returned to the pools and the handed-out task's
units are removed from them. -/
lemma get_new_task_inv {T P G M : Type} {C : ℕ} {s : TaskScheduler T P G M}
    {t : Task T P G M} {now : ℤ} {t' : Task T P G M} {s' : TaskScheduler T P G M}
    (hInv : PoolInv C s t)
    (h : s.get_new_task t now = some (t', s')) : PoolInv C s' t' := by
  have hInv2 : PoolInv C (s.complete_task t now) Task.sleep :=
    complete_task_inv hInv now
  simp only [TaskScheduler.get_new_task, TaskScheduler.get_new_task_tail] at h
  split_ifs at h
  all_goals
    first
      | exact pool_inv_create_tonemap hInv2 h
      | exact pool_inv_create_trace hInv2 h
      | exact pool_inv_create_plot hInv2 h
      | exact pool_inv_create_gather hInv2 h
      | (simp only [Option.some.injEq, Prod.mk.injEq] at h
         obtain ⟨ht, hs⟩ := h
         subst ht
         subst hs
         exact hInv2)

/-- The freshly constructed scheduler with everything in its pools
satisfies the conservation invariant against an idle (`Sleep`) task. -/
lemma pool_inv_new {T P G M : Type} (mkTrace : ℕ → T) (mkPlot : ℕ → P)
    (gather0 : G) (tonemap0 : M) (C : ℕ) (now0 : ℤ) :
    PoolInv C (TaskScheduler.new mkTrace mkPlot gather0 tonemap0 C now0)
      Task.sleep := by
  refine ⟨?_, ?_, rfl, rfl⟩
  · show ((List.range (C * 3)).map mkTrace).length + 0 + 0 = 3 * C
    rw [List.length_map, List.length_range]
    omega
  · show ((List.range (max 1 (C / 2))).map mkPlot).length + 0 + 0 = max 1 (C / 2)
    rw [List.length_map, List.length_range]
    omega

/-- The invariant holds after any number of chained calls. -/
lemma schedulerRun_inv_aux {T P G M : Type} {C : ℕ} :
    ∀ (times : List ℤ) (p0 p : Task T P G M × TaskScheduler T P G M),
      PoolInv C p0.2 p0.1 →
      times.foldlM (fun q now => q.2.get_new_task q.1 now) p0 = some p →
      PoolInv C p.2 p.1 := by
  intro times
  induction times with
  | nil =>
    intro p0 p h0 h
    simp only [List.foldlM_nil] at h
    cases h
    exact h0
  | cons a l ih =>
    intro p0 p h0 h
    rw [List.foldlM_cons] at h
    cases hstep : p0.2.get_new_task p0.1 a with
    | none => rw [hstep] at h; cases h
    | some p1 =>
      rw [hstep] at h
      exact ih p1 p (get_new_task_inv h0 hstep) h

/-- C2: along every single-chain sequence of `get_new_task` calls starting
from a freshly constructed scheduler with concurrency `C` (each call
returning the previously issued task as completed), at every observation
point the trace units in the available queue, the done queue and the
in-flight task total `3 · C`, the plot units total `max 1 (C / 2)`, and
the gather and tonemap units are each in exactly one of the two states
in-slot or in-flight. -/
theorem scheduler_pool_conservation {T P G M : Type} (mkTrace : ℕ → T)
    (mkPlot : ℕ → P) (gather0 : G) (tonemap0 : M) (C : ℕ) (now0 : ℤ)
    (times : List ℤ) (p : Task T P G M × TaskScheduler T P G M)
    (h : schedulerRun mkTrace mkPlot gather0 tonemap0 C now0 times = some p) :
    PoolInv C p.2 p.1 := by
  unfold schedulerRun at h
  exact schedulerRun_inv_aux times _ p
    (pool_inv_new mkTrace mkPlot gather0 tonemap0 C now0) h

/-- C2, witness: one call at concurrency 1 (which hands out a trace task)
observed at time 100. -/
theorem scheduler_pool_conservation_witness :
    ∃ p : Task ℕ ℕ ℕ ℕ × TaskScheduler ℕ ℕ ℕ ℕ,
      schedulerRun id id 0 0 1 0 [100] = some p ∧ PoolInv 1 p.2 p.1 :=
  ⟨_, rfl, scheduler_pool_conservation id id 0 0 1 0 [100] _ rfl⟩

/-! ## Theorems about the trace unit's Russian roulette -/

/-- If the first `k` bounces are reflective and survive the roulette, the
loop reaches bounce `k` with continuation probability `0.96 ^ k` and
intensity `∏ i < k, p i`; failing the survival condition there makes the
whole path return 0. -/
lemma render_ray_loop_kill (hit : ℕ → Hit) (rand p : ℕ → ℝ) (k : ℕ)
    (hrefl : ∀ j, j ≤ k → hit j = Hit.reflective (p j))
    (hsurv : ∀ j, j < k → roulette_survives rand p j)
    (hkill : ¬ roulette_survives rand p k) :
    ∀ fuel j, j ≤ k → k - j < fuel →
      render_ray_loop hit rand fuel (0.96 ^ j) (∏ i ∈ Finset.range j, p i) j
        = some 0 := by
  intro fuel
  induction fuel with
  | zero => intro j hj hf; omega
  | succ f ih =>
    intro j hj hf
    simp only [render_ray_loop, hrefl j hj]
    rw [← Finset.prod_range_succ, ← pow_succ]
    have harg : (∏ i ∈ Finset.range (j + 1), p i) * (-20)
        = -(20 * ∏ i ∈ Finset.range (j + 1), p i) := by ring
    rw [harg]
    by_cases hjk : j = k
    · subst hjk
      rw [if_pos (not_le.mp hkill)]
    · have hlt : j < k := lt_of_le_of_ne hj hjk
      rw [if_neg (not_lt.mpr (hsurv j hlt))]
      exact ih (j + 1) hlt (by omega)

/-- As long as every bounce is reflective and survives the roulette, the
loop never breaks: it only stops when the fuel runs out. -/
lemma render_ray_loop_alive (hit : ℕ → Hit) (rand p : ℕ → ℝ) :
    ∀ fuel j,
      (∀ i, i < j + fuel → hit i = Hit.reflective (p i)) →
      (∀ i, i < j + fuel → roulette_survives rand p i) →
      render_ray_loop hit rand fuel (0.96 ^ j) (∏ i ∈ Finset.range j, p i) j
        = none := by
  intro fuel
  induction fuel with
  | zero => intro j _ _; rfl
  | succ f ih =>
    intro j hrefl hsurv
    simp only [render_ray_loop, hrefl j (by omega)]
    rw [← Finset.prod_range_succ, ← pow_succ]
    have harg : (∏ i ∈ Finset.range (j + 1), p i) * (-20)
        = -(20 * ∏ i ∈ Finset.range (j + 1), p i) := by ring
    rw [harg]
    rw [if_neg (not_lt.mpr (hsurv j (by omega)))]
    exact ih (j + 1) (fun i hi => hrefl i (by omega)) (fun i hi => hsurv i (by omega))

/-- C7: along an all-reflective path, the continuation probability starts
at 1 and is multiplied by 0.96 after each reflective bounce, the intensity
is the running product of the scattered rays' probability weights, and the
bounce-`j` survival condition is exactly
`rand j · 0.85 ≤ 0.96 ^ (j+1) · (1 − exp (−20 · ∏ i ≤ j, p i))`
(`roulette_survives`): (a) if bounces `0, …, k−1` survive it and bounce `k`
fails it, the path is terminated with contribution 0; (b) if every bounce
survives it, the loop never terminates via the roulette (it only runs out
of fuel). -/
theorem trace_russian_roulette (hit : ℕ → Hit) (rand p : ℕ → ℝ) :
    (∀ k : ℕ, (∀ j, j ≤ k → hit j = Hit.reflective (p j)) →
      (∀ j, j < k → roulette_survives rand p j) →
      ¬ roulette_survives rand p k →
      ∀ fuel, k < fuel → render_ray hit rand fuel = some 0)
    ∧ (∀ fuel : ℕ, (∀ j, j < fuel → hit j = Hit.reflective (p j)) →
      (∀ j, j < fuel → roulette_survives rand p j) →
      render_ray hit rand fuel = none) := by
  constructor
  · intro k hrefl hsurv hkill fuel hfuel
    have h := render_ray_loop_kill hit rand p k hrefl hsurv hkill fuel 0
      (Nat.zero_le k) (by omega)
    simpa [render_ray] using h
  · intro fuel hrefl hsurv
    have h := render_ray_loop_alive hit rand p fuel 0
      (fun i hi => hrefl i (by omega)) (fun i hi => hsurv i (by omega))
    simpa [render_ray] using h

/-- C7, witness: with every intersection reflective at weight 1 and a draw
of 2, the very first roulette check fails
(`2 · 0.85 > 0.96 · (1 − exp (−20))`), so the path contributes 0. -/
theorem trace_russian_roulette_witness :
    render_ray (fun _ => Hit.reflective 1) (fun _ => 2) 1 = some 0 :=
  (trace_russian_roulette (fun _ => Hit.reflective 1) (fun _ => 2)
      (fun _ => 1)).1 0
    (fun _ _ => rfl)
    (fun j hj => absurd hj (Nat.not_lt_zero j))
    (by
      unfold roulette_survives
      simp only [Finset.prod_const_one, mul_one]
      intro hle
      have hexp : 0 < Real.exp (-(20 : ℝ)) := Real.exp_pos _
      norm_num at hle
      nlinarith)
    1 (by norm_num)

end RobigoLuculenta
